import Mathlib

/-!
Verification of the transaction submission and nonce-management subsystem
of the vana framework (vana/utils/transaction.py, class TransactionManager).

The Python code is shallowly embedded: every external effect (RPC reads,
signing, broadcasting, receipt fetches, the wall clock) is supplied by an
explicit oracle/script argument, and each Python method becomes a pure
Lean function threading the mutable nonce state.  Python exceptions become
an explicit error type routed through Except.
-/

namespace Vana

/-- Python exception values relevant to TransactionManager, distinguished by
the classes matched in the except clauses of transaction.py: ContractLogicError,
ContractCustomError, TimeoutError, and the base Exception class.  Every
constructor carries the str() rendering of the exception. -/
inductive PyErr where
  | contractLogicError (msg : String)
  | contractCustomError (msg : String)
  | timeoutError (msg : String)
  | exception (msg : String)
deriving DecidableEq

/-- The str() rendering of an exception value. -/
def PyErr.msg : PyErr → String
  | .contractLogicError m => m
  | .contractCustomError m => m
  | .timeoutError m => m
  | .exception m => m

/-- True exactly for the exception classes given dedicated fatal handlers by
send_transaction (lines 273-287): ContractCustomError and ContractLogicError.
All other exceptions fall into the generic retry handler (line 289). -/
def PyErr.isFatalClass : PyErr → Bool
  | .contractLogicError _ => true
  | .contractCustomError _ => true
  | _ => false

/-- Model of the Python str.startswith check used at line 263: character-list
prefix test. -/
def pyStartsWith (s p : String) : Bool :=
  List.isPrefixOf p.data s.data

/-- Nonce bookkeeping of a TransactionManager: the per-account cached next
nonce (the _nonce_cache entry for the single account, None when the key is
absent) and the _last_nonce_refresh timestamp, in whole seconds. -/
structure NonceState where
  cache : Option Nat
  lastRefresh : Nat
deriving DecidableEq

/-- The cached nonce value, defaulting to 0 as in _nonce_cache.get(key, 0). -/
def cacheVal (st : NonceState) : Nat :=
  st.cache.getD 0

/-- The refresh condition of _get_safe_nonce lines 34-37:
current_time - last_refresh > interval, or no cache entry for the account. -/
def shouldRefreshNonce (interval : Nat) (st : NonceState) (now : Nat) : Bool :=
  decide (interval < now - st.lastRefresh) || st.cache.isNone

/-- Embedding of TransactionManager._get_safe_nonce (transaction.py lines
22-68).  The argument reads is the outcome of the paired
get_transaction_count calls (confirmed, pending) issued during a refresh;
now is the wall clock.  On a refresh the cache becomes
max(max(confirmed, pending), cached) (lines 42-52); a refresh failure is
swallowed unless the account has no cached entry (lines 59-62); finally the
cached value is returned and the cache incremented (lines 64-68). -/
def getSafeNonce (interval : Nat) (st : NonceState) (now : Nat)
    (reads : Except PyErr (Nat × Nat)) : Except PyErr Nat × NonceState :=
  if shouldRefreshNonce interval st now then
    match reads with
    | .ok (confirmed, pending) =>
        let newNonce := max confirmed pending
        let nonce := max newNonce (cacheVal st)
        (.ok nonce, { cache := some (nonce + 1), lastRefresh := now })
    | .error e =>
        match st.cache with
        | none => (.error e, st)
        | some n => (.ok n, { st with cache := some (n + 1) })
  else
    match st.cache with
    | none => (.error (.exception "KeyError"), st)
    | some n => (.ok n, { st with cache := some (n + 1) })

example : getSafeNonce 60 ⟨none, 0⟩ 0 (.ok (0, 0)) = (.ok 0, ⟨some 1, 0⟩) := by
  rfl

example : getSafeNonce 60 ⟨some 5, 0⟩ 32 (.ok (9, 9)) = (.ok 5, ⟨some 6, 0⟩) := by
  rfl

example : getSafeNonce 60 ⟨some 1, 0⟩ 61 (.ok (0, 5)) = (.ok 5, ⟨some 6, 61⟩) := by
  rfl

example :
    getSafeNonce 60 ⟨some 4, 0⟩ 100 (.error (.exception "boom")) =
      (.ok 4, ⟨some 5, 0⟩) := by
  rfl

example :
    getSafeNonce 60 ⟨none, 0⟩ 100 (.error (.exception "boom")) =
      (.error (.exception "boom"), ⟨none, 0⟩) := by
  rfl

/-- Oracle for every external effect performed by
_clear_pending_transactions (transaction.py lines 70-139).  Per-nonce and
per-iteration outcomes are scripted; an error value means the Python call
raised. -/
structure SweepOracle where
  pendingRead : Except PyErr Nat
  confirmedRead : Except PyErr Nat
  gasPrice : Nat → Except PyErr Nat
  sign : Nat → Except PyErr Nat
  sendRaw : Nat → Except PyErr Nat
  pollLatest : Nat → Except PyErr Nat
  pollPending : Nat → Except PyErr Nat

/-- The replacement loop of lines 89-105: for each stuck nonce, read the
gas price, sign a zero-value self-transfer, and broadcast it.  The
broadcast sits in its own try block, so both of its outcomes continue the
loop (lines 101-105); gas price reads and signing are not protected and
propagate. -/
def sweepReplaceLoop (o : SweepOracle) : List Nat → Except PyErr Unit
  | [] => .ok ()
  | n :: rest =>
      match o.gasPrice n with
      | .error e => .error e
      | .ok _ =>
        match o.sign n with
        | .error e => .error e
        | .ok _ =>
          match o.sendRaw n with
          | .ok _ => sweepReplaceLoop o rest
          | .error _ => sweepReplaceLoop o rest

/-- The monitoring loop of lines 108-131.  Iteration i runs at roughly
5 * i seconds elapsed (a 5 second sleep ends each iteration); the loop
re-reads the latest and pending counts and stops early once the confirmed
nonce passes the highest replaced nonce or the pending gap reaches zero.
Returns true on an early stop and false when the while condition expires
(the timeout warning of lines 133-136).  The fuel argument bounds the
recursion and is chosen large enough that the while condition always
expires first. -/
def sweepWaitLoop (o : SweepOracle) (maxWait highest : Nat) :
    Nat → Nat → Except PyErr Bool
  | _, 0 => .ok false
  | i, fuel + 1 =>
      if maxWait ≤ 5 * i then .ok false
      else
        match o.pollLatest i with
        | .error e => .error e
        | .ok current =>
          match o.pollPending i with
          | .error e => .error e
          | .ok pending =>
            if highest < current then .ok true
            else if pending - current = 0 then .ok true
            else sweepWaitLoop o maxWait highest (i + 1) fuel

/-- The body of _clear_pending_transactions inside its outermost try
(lines 78-136): read the pending and confirmed counts, and when a gap
exists send the replacements and monitor until cleared or timed out. -/
def clearPendingBody (o : SweepOracle) (maxWait : Nat) : Except PyErr Unit :=
  match o.pendingRead with
  | .error e => .error e
  | .ok pending =>
    match o.confirmedRead with
    | .error e => .error e
    | .ok confirmed =>
      if confirmed < pending then
        match sweepReplaceLoop o (List.range' confirmed (pending - confirmed)) with
        | .error e => .error e
        | .ok _ =>
          match sweepWaitLoop o maxWait (pending - 1) 0 (maxWait + 1) with
          | .error e => .error e
          | .ok _ => .ok ()
      else .ok ()

/-- Embedding of TransactionManager._clear_pending_transactions (lines
70-139): the whole body is wrapped in try/except Exception whose handler
only logs (lines 138-139), so every raised error is converted into a
normal return. -/
def clearPendingTransactions (o : SweepOracle) (maxWait : Nat) :
    Except PyErr Unit :=
  match clearPendingBody o maxWait with
  | .ok _ => .ok ()
  | .error _ => .ok ()

/-- The gas price multiplier of send_transaction lines 200-203 for retry
n at least 1: min of base_gas_multiplier * 1.2 ^ (n - 1) and
max_gas_multiplier, with 1.2 modelled exactly as 6/5. -/
def gasMultiplier (b M : ℚ) (n : Nat) : ℚ :=
  min (b * (6 / 5 : ℚ) ^ (n - 1)) M

/-- The gas price computation of send_transaction lines 195-204: the raw
network price base on attempt 0, and int(base * multiplier) on retry n,
truncation on nonnegative values being the floor. -/
def gasPriceAt (base : Nat) (b M : ℚ) (n : Nat) : ℤ :=
  if n = 0 then (base : ℤ) else ⌊(base : ℚ) * gasMultiplier b M n⌋

example : gasPriceAt 1000000000 (3 / 2) 5 0 = 1000000000 := by
  unfold gasPriceAt; norm_num

example : gasPriceAt 1000000000 (3 / 2) 5 1 = 1500000000 := by
  unfold gasPriceAt gasMultiplier; norm_num [Int.floor_eq_iff]

example : gasPriceAt 1000000000 (3 / 2) 5 2 = 1800000000 := by
  unfold gasPriceAt gasMultiplier; norm_num [min_def, Int.floor_eq_iff]

example : gasPriceAt 100 (3 / 2) (3 / 2) 1 = 150 := by
  unfold gasPriceAt gasMultiplier; norm_num [min_def, Int.floor_eq_iff]

example : gasPriceAt 100 (3 / 2) (3 / 2) 2 = 150 := by
  unfold gasPriceAt gasMultiplier; norm_num [min_def, Int.floor_eq_iff]

/-- The string tested by str(e).startswith at line 263 of the receipt
polling loop. -/
def revertMarker : String := "Transaction reverted"

/-- One scripted outcome of a get_transaction_receipt call inside the
polling loop (line 252): a receipt with its status and gasUsed fields, a
None return, or a raised exception. -/
inductive FetchResult where
  | receipt (status gasUsed : Nat)
  | noReceipt
  | fetchError (e : PyErr)
deriving DecidableEq

/-- One iteration of the receipt polling script: the fetch outcome and the
wall clock elapsed since start_time when the timeout check of line 268
runs in that iteration. -/
structure PollStep where
  fetch : FetchResult
  elapsed : Nat
deriving DecidableEq

/-- How the receipt polling loop of lines 249-271 ends: a successful
receipt returns, a revert-classified exception propagates, the timeout
check raises TimeoutError; stillPolling is a modelling artifact meaning
the finite script ended while the loop would keep running. -/
inductive PollOutcome where
  | success (gasUsed : Nat)
  | raised (e : PyErr)
  | timedOut
  | stillPolling
deriving DecidableEq

/-- Embedding of the receipt polling loop of send_transaction lines
249-271.  A receipt with status 1 returns immediately; a receipt with any
other status raises a Transaction reverted exception, which the inner
except clause re-raises because its message starts with the revert marker
(lines 262-266); any other exception whose message lacks the marker is
swallowed; then the timeout check of lines 268-269 runs and the loop
continues. -/
def pollLoop (timeout : Nat) : List PollStep → PollOutcome
  | [] => .stillPolling
  | s :: rest =>
    match s.fetch with
    | .receipt status gasUsed =>
      if status = 1 then .success gasUsed
      else
        let e : PyErr :=
          .exception ("Transaction reverted - consumed " ++ toString gasUsed ++ " gas")
        if pyStartsWith e.msg revertMarker then .raised e
        else if timeout < s.elapsed then .timedOut
        else pollLoop timeout rest
    | .noReceipt =>
      if timeout < s.elapsed then .timedOut
      else pollLoop timeout rest
    | .fetchError e =>
      if pyStartsWith e.msg revertMarker then .raised e
      else if timeout < s.elapsed then .timedOut
      else pollLoop timeout rest

example : pollLoop 30 [⟨.receipt 1 50000, 1⟩] = .success 50000 := by decide

example :
    pollLoop 30 [⟨.receipt 0 21000, 1⟩] =
      .raised (.exception "Transaction reverted - consumed 21000 gas") := by
  decide

example : pollLoop 30 [⟨.noReceipt, 31⟩] = .timedOut := by decide

example :
    pollLoop 30 [⟨.fetchError (.exception "connection reset"), 3⟩, ⟨.noReceipt, 31⟩] =
      .timedOut := by
  decide

/-- Oracle for every external effect inside one iteration of the
send_transaction retry loop: gas estimation (line 188), the base gas price
read (line 196), the wall clock and chain reads seen by _get_safe_nonce
(line 214), build_transaction (line 215), the eth.call simulation (line
226), signing (line 238), broadcasting (line 246), the receipt polling
script, and the outcome of decode_custom_error (line 276, none when
decoding itself raised). -/
structure AttemptOracle where
  estimateGas : Except PyErr Nat
  gasPriceWei : Except PyErr Nat
  nonceNow : Nat
  nonceReads : Except PyErr (Nat × Nat)
  buildOk : Except PyErr Unit
  simulate : Except PyErr Unit
  signOk : Except PyErr Unit
  sendRaw : Except PyErr Nat
  pollSteps : List PollStep
  decodeCustom : Option String

/-- What one iteration of the retry loop produced: the Except value
reaching the outer exception handlers (ok carries the transaction hash and
gasUsed of a success receipt), the nonce state afterwards, whether
send_raw_transaction was executed, and the nonce and gas price the attempt
used. -/
structure AttemptOut where
  result : Except PyErr (Nat × Nat)
  state : NonceState
  broadcast : Bool
  nonceUsed : Option Nat
  gasPriceUsed : Option ℤ

/-- Embedding of the body of the send_transaction while loop (lines
186-271) for retry count rc.  Steps run in source order; the first raising
step aborts the attempt.  A ContractLogicError from the simulation is
caught at lines 234-236 and re-raised as a plain Exception whose message
starts with Transaction would revert.  Returns none when the polling
script was exhausted with the loop still running. -/
def runAttempt (interval timeout : Nat) (b M : ℚ) (rc : Nat)
    (st : NonceState) (a : AttemptOracle) : Option AttemptOut :=
  match a.estimateGas with
  | .error e => some ⟨.error e, st, false, none, none⟩
  | .ok _ =>
    match a.gasPriceWei with
    | .error e => some ⟨.error e, st, false, none, none⟩
    | .ok basePrice =>
      let gasPrice := gasPriceAt basePrice b M rc
      match getSafeNonce interval st a.nonceNow a.nonceReads with
      | (.error e, st') => some ⟨.error e, st', false, none, some gasPrice⟩
      | (.ok nonce, st') =>
        match a.buildOk with
        | .error e => some ⟨.error e, st', false, some nonce, some gasPrice⟩
        | .ok _ =>
          match a.simulate with
          | .error (.contractLogicError m) =>
              some ⟨.error (.exception ("Transaction would revert: " ++ m)),
                    st', false, some nonce, some gasPrice⟩
          | .error e => some ⟨.error e, st', false, some nonce, some gasPrice⟩
          | .ok _ =>
            match a.signOk with
            | .error e => some ⟨.error e, st', false, some nonce, some gasPrice⟩
            | .ok _ =>
              match a.sendRaw with
              | .error e => some ⟨.error e, st', false, some nonce, some gasPrice⟩
              | .ok txHash =>
                match pollLoop timeout a.pollSteps with
                | .success gasUsed =>
                    some ⟨.ok (txHash, gasUsed), st', true, some nonce, some gasPrice⟩
                | .raised e => some ⟨.error e, st', true, some nonce, some gasPrice⟩
                | .timedOut =>
                    some ⟨.error (.timeoutError ("Transaction not mined within " ++
                            toString timeout ++ " seconds")),
                          st', true, some nonce, some gasPrice⟩
                | .stillPolling => none

/-- The configuration parameters of send_transaction that the embedding
consumes: the nonce_refresh_interval of the manager (60 in __init__), the
receipt timeout, max_retries, base_gas_multiplier and max_gas_multiplier. -/
structure SendConfig where
  interval : Nat
  timeout : Nat
  maxRetries : Nat
  baseGasMultiplier : ℚ
  maxGasMultiplier : ℚ

/-- The str() rendering of the last_error variable, None included. -/
def optErrMsg : Option PyErr → String
  | none => "None"
  | some e => e.msg

/-- The dedicated fatal handlers of lines 273-287: a ContractCustomError
is re-raised as a plain Exception carrying the decoded custom error (or
its raw str() when decode_custom_error raised), a ContractLogicError is
re-raised as a plain Exception with the Transaction would revert message.
Every other exception returns none and falls to the retry handler of
line 289. -/
def classifyFatal (decoded : Option String) : PyErr → Option PyErr
  | .contractCustomError m =>
      some (.exception ("Contract custom error: " ++ decoded.getD m))
  | .contractLogicError m =>
      some (.exception ("Transaction would revert: " ++ m))
  | _ => none

/-- Observable trace of one send_transaction call: its final Except value,
how many iterations of the retry loop ran, how many broadcasts were
submitted, the nonces handed out in order, the gas prices used in order,
the final value of the last_error variable, and the nonce state left in
the manager. -/
structure SendOutcome where
  result : Except PyErr (Nat × Nat)
  attempts : Nat
  broadcasts : Nat
  noncesUsed : List Nat
  gasPricesUsed : List ℤ
  lastError : Option PyErr
  finalState : NonceState

/-- Embedding of the while loop of send_transaction lines 182-304.  The
arguments rc and remaining satisfy remaining = max_retries - rc at the
loop head; the attempt scripts are indexed by retry count.  A fatal
classification raises immediately (lines 273-287); a retryable error
stores last_error and increments retry_count, re-raising the error itself
once retry_count reaches max_retries (bare raise, line 302); the loop can
only fall through to the aggregate raise of line 304 when max_retries was
0 at entry.  Returns none when some attempt script was exhausted. -/
def sendLoop (cfg : SendConfig) (o : Nat → AttemptOracle) :
    Nat → Nat → NonceState → Option PyErr → Option SendOutcome
  | _, 0, st, lastErr =>
      some { result := .error (.exception ("Failed to send transaction after " ++
                 toString cfg.maxRetries ++ " attempts: " ++ optErrMsg lastErr)),
             attempts := 0, broadcasts := 0, noncesUsed := [], gasPricesUsed := [],
             lastError := lastErr, finalState := st }
  | rc, remaining + 1, st, lastErr =>
      match runAttempt cfg.interval cfg.timeout cfg.baseGasMultiplier
              cfg.maxGasMultiplier rc st (o rc) with
      | none => none
      | some att =>
        let bc := if att.broadcast then 1 else 0
        match att.result with
        | .ok v =>
            some { result := .ok v, attempts := 1, broadcasts := bc,
                   noncesUsed := att.nonceUsed.toList,
                   gasPricesUsed := att.gasPriceUsed.toList,
                   lastError := lastErr, finalState := att.state }
        | .error e =>
          match classifyFatal (o rc).decodeCustom e with
          | some fe =>
              some { result := .error fe, attempts := 1, broadcasts := bc,
                     noncesUsed := att.nonceUsed.toList,
                     gasPricesUsed := att.gasPriceUsed.toList,
                     lastError := lastErr, finalState := att.state }
          | none =>
            if remaining = 0 then
              some { result := .error e, attempts := 1, broadcasts := bc,
                     noncesUsed := att.nonceUsed.toList,
                     gasPricesUsed := att.gasPriceUsed.toList,
                     lastError := some e, finalState := att.state }
            else
              match sendLoop cfg o (rc + 1) remaining att.state (some e) with
              | none => none
              | some rest =>
                  some { result := rest.result, attempts := rest.attempts + 1,
                         broadcasts := rest.broadcasts + bc,
                         noncesUsed := att.nonceUsed.toList ++ rest.noncesUsed,
                         gasPricesUsed := att.gasPriceUsed.toList ++ rest.gasPricesUsed,
                         lastError := rest.lastError, finalState := rest.finalState }

/-- The sweep trigger of send_transaction lines 175-180: the sweep runs
exactly when the clear_pending_transactions flag is set and the
chain-reported pending count exceeds the confirmed count. -/
def sweepTriggered (flag : Bool) (pending latest : Nat) : Bool :=
  flag && decide (0 < pending - latest)

/-- Written from the claim wording, for comparison with sweepTriggered:
the sweep would run exactly when max_pending_transactions is positive and
the pending-minus-confirmed gap exceeds max_pending_transactions. -/
def specSweepTriggered (maxPending pending latest : Nat) : Bool :=
  decide (0 < maxPending) && decide (maxPending < pending - latest)

/-- Oracle for a whole send_transaction call: the pending and latest
transaction counts read at lines 176-177 when the clear flag is set, and
one attempt oracle per retry count. -/
structure SendOracle where
  preReads : Except PyErr (Nat × Nat)
  attempt : Nat → AttemptOracle

/-- Embedding of TransactionManager.send_transaction (lines 141-304).
When the clear flag is set the two transaction-count reads of lines
176-177 run outside any try block, so their failure raises out of the
whole call; otherwise the sweep (whose execution never raises, see
clearPendingTransactions) is triggered per sweepTriggered and the retry
loop runs.  The Bool in the result records whether the sweep was
invoked. -/
def sendTransaction (cfg : SendConfig) (clearFlag : Bool) (o : SendOracle)
    (st : NonceState) : Option (SendOutcome × Bool) :=
  if clearFlag then
    match o.preReads with
    | .error e =>
        some ({ result := .error e, attempts := 0, broadcasts := 0,
                noncesUsed := [], gasPricesUsed := [], lastError := none,
                finalState := st }, false)
    | .ok (pending, latest) =>
        (sendLoop cfg o.attempt 0 cfg.maxRetries st none).map
          (fun out => (out, sweepTriggered clearFlag pending latest))
  else
    (sendLoop cfg o.attempt 0 cfg.maxRetries st none).map (fun out => (out, false))

/-- The default configuration of send_transaction: nonce refresh interval
60, timeout 30, max_retries 3, base_gas_multiplier 1.5,
max_gas_multiplier 5.0. -/
def defaultCfg : SendConfig :=
  { interval := 60, timeout := 30, maxRetries := 3,
    baseGasMultiplier := 3 / 2, maxGasMultiplier := 5 }

/-- Attempt script in which every step succeeds except the eth.call
simulation, which raises a ContractLogicError. -/
def simRevertAttempt : AttemptOracle :=
  { estimateGas := .ok 100000, gasPriceWei := .ok 1000000000, nonceNow := 0,
    nonceReads := .ok (0, 0), buildOk := .ok (),
    simulate := .error (.contractLogicError "execution reverted: Unauthorized"),
    signOk := .ok (), sendRaw := .ok 17, pollSteps := [], decodeCustom := none }

/-- Attempt script in which the transaction is broadcast and the first
receipt poll returns a mined receipt with failure status. -/
def minedRevertAttempt : AttemptOracle :=
  { estimateGas := .ok 100000, gasPriceWei := .ok 1000000000, nonceNow := 0,
    nonceReads := .ok (0, 0), buildOk := .ok (), simulate := .ok (),
    signOk := .ok (), sendRaw := .ok 17,
    pollSteps := [⟨.receipt 0 21000, 1⟩], decodeCustom := none }

/-- An attempt script whose every step succeeds, parameterized by the wall
clock at the nonce acquisition, the chain counts a nonce refresh would
read, and the broadcast hash; the first receipt poll returns success. -/
def successAttempt (t : Nat) (reads : Except PyErr (Nat × Nat)) (hash : Nat) :
    AttemptOracle :=
  { estimateGas := .ok 100000, gasPriceWei := .ok 1000000000, nonceNow := t,
    nonceReads := reads, buildOk := .ok (), simulate := .ok (), signOk := .ok (),
    sendRaw := .ok hash, pollSteps := [⟨.receipt 1 50000, 1⟩], decodeCustom := none }

/-- Script for a run whose first attempt hits the receipt timeout and
whose second attempt, 32 seconds into the call, succeeds; the chain counts
a refresh would report at the second attempt are (9, 9). -/
def timeoutThenSuccess : Nat → AttemptOracle := fun i =>
  if i = 0 then
    { estimateGas := .ok 100000, gasPriceWei := .ok 1000000000, nonceNow := 0,
      nonceReads := .ok (0, 0), buildOk := .ok (), simulate := .ok (),
      signOk := .ok (), sendRaw := .ok 17, pollSteps := [⟨.noReceipt, 31⟩],
      decodeCustom := none }
  else successAttempt 32 (.ok (9, 9)) 18

/-- An attempt script failing at the first step with a transient network
error. -/
def transientAttempt : AttemptOracle :=
  { estimateGas := .error (.exception "connection error"), gasPriceWei := .ok 0,
    nonceNow := 0, nonceReads := .ok (0, 0), buildOk := .ok (), simulate := .ok (),
    signOk := .ok (), sendRaw := .ok 0, pollSteps := [], decodeCustom := none }

/-- Property of an attempt script: from every nonce state, the attempt
resolves to an error that the outer handlers classify as retryable. -/
def attemptAlwaysRetryable (cfg : SendConfig) (a : AttemptOracle) (rc : Nat) : Prop :=
  ∀ st : NonceState, ∃ out : AttemptOut, ∃ e : PyErr,
    runAttempt cfg.interval cfg.timeout cfg.baseGasMultiplier cfg.maxGasMultiplier
        rc st a = some out ∧
      out.result = .error e ∧ e.isFatalClass = false

lemma shouldRefreshNonce_of_none (interval now last : Nat) :
    shouldRefreshNonce interval ⟨none, last⟩ now = true := by
  simp [shouldRefreshNonce]

lemma getSafeNonce_ok_cache (interval now : Nat) (st : NonceState)
    (r : Except PyErr (Nat × Nat)) (n : Nat)
    (h : (getSafeNonce interval st now r).1 = Except.ok n) :
    (getSafeNonce interval st now r).2.cache = some (n + 1) := by
  obtain ⟨cache, last⟩ := st
  by_cases hs : shouldRefreshNonce interval ⟨cache, last⟩ now
  · cases r with
    | ok cp =>
        obtain ⟨c, p⟩ := cp
        simp [getSafeNonce, hs] at h ⊢
        omega
    | error e =>
        cases cache with
        | none => simp [getSafeNonce, hs] at h
        | some m =>
            simp [getSafeNonce, hs] at h ⊢
            omega
  · cases cache with
    | none => simp [shouldRefreshNonce_of_none] at hs
    | some m =>
        simp [getSafeNonce, hs] at h ⊢
        omega

lemma getSafeNonce_ok_ge (interval now : Nat) (st : NonceState)
    (r : Except PyErr (Nat × Nat)) (n : Nat)
    (h : (getSafeNonce interval st now r).1 = Except.ok n) :
    cacheVal st ≤ n := by
  obtain ⟨cache, last⟩ := st
  by_cases hs : shouldRefreshNonce interval ⟨cache, last⟩ now
  · cases r with
    | ok cp =>
        obtain ⟨c, p⟩ := cp
        simp [getSafeNonce, hs, cacheVal] at h ⊢
        omega
    | error e =>
        cases cache with
        | none => simp [getSafeNonce, hs] at h
        | some m =>
            simp [getSafeNonce, hs, cacheVal] at h ⊢
            omega
  · cases cache with
    | none => simp [shouldRefreshNonce_of_none] at hs
    | some m =>
        simp [getSafeNonce, hs, cacheVal] at h ⊢
        omega

lemma getSafeNonce_cache_mono (interval now : Nat) (st : NonceState)
    (r : Except PyErr (Nat × Nat)) :
    cacheVal st ≤ cacheVal (getSafeNonce interval st now r).2 := by
  obtain ⟨cache, last⟩ := st
  by_cases hs : shouldRefreshNonce interval ⟨cache, last⟩ now
  · cases r with
    | ok cp =>
        obtain ⟨c, p⟩ := cp
        simp [getSafeNonce, hs, cacheVal]
        omega
    | error e =>
        cases cache with
        | none => simp [getSafeNonce, hs]
        | some m =>
            simp [getSafeNonce, hs, cacheVal]
  · cases cache with
    | none => simp [shouldRefreshNonce_of_none] at hs
    | some m => simp [getSafeNonce, hs, cacheVal]

lemma getSafeNonce_noRefresh (interval now : Nat) (st : NonceState)
    (r : Except PyErr (Nat × Nat)) (n : Nat)
    (hs : shouldRefreshNonce interval st now = false)
    (hc : st.cache = some n) :
    (getSafeNonce interval st now r).1 = Except.ok n := by
  obtain ⟨cache, last⟩ := st
  simp at hc
  subst hc
  simp [getSafeNonce, hs]

/-- Claim C7: the stuck-transaction sweep never raises to its caller;
whatever every scripted RPC call, signing step, broadcast or poll
iteration does, _clear_pending_transactions returns normally. -/
theorem clearPendingTransactions_never_raises (o : SweepOracle) (maxWait : Nat) :
    clearPendingTransactions o maxWait = .ok () := by
  unfold clearPendingTransactions
  split <;> rfl

/-- Claim C6, amended: the sweep in send_transaction is triggered exactly
when the clear_pending_transactions flag is set and the chain-reported
pending count strictly exceeds the confirmed count; no
max_pending_transactions threshold exists in the code. -/
theorem sweepTriggered_iff (flag : Bool) (pending latest : Nat) :
    sweepTriggered flag pending latest = true ↔ flag = true ∧ latest < pending := by
  simp [sweepTriggered]

/-- Claim C6, counterexample: with the flag set and a pending-confirmed
gap of 5, the code invokes the sweep, while the claimed trigger condition
with threshold 10 says no sweep happens. -/
theorem sweepTrigger_counterexample :
    sweepTriggered true 5 0 = true ∧ specSweepTriggered 10 5 0 = false := by
  decide

/-- Claim C1, code bug: when the eth.call simulation raises a contract
revert on every attempt, send_transaction does not abort after the first
attempt; the plain Exception re-raised at line 236 is caught by the
generic retry handler of line 289, so with max_retries 3 the loop runs 3
attempts (with 0 broadcasts) before raising the revert message. -/
theorem simulationRevert_retried_eval :
    (sendTransaction defaultCfg false ⟨.ok (0, 0), fun _ => simRevertAttempt⟩
        ⟨none, 0⟩).map
      (fun p => (p.1.attempts, p.1.broadcasts, p.1.noncesUsed, p.1.result, p.2)) =
    some (3, 0, [0, 1, 2],
      .error (.exception "Transaction would revert: execution reverted: Unauthorized"),
      false) := by
  rfl

/-- Claim C2, code bug: a mined receipt with failure status raises the
Transaction reverted exception out of the polling loop, but that plain
Exception lands in the generic retry handler of line 289; with
max_retries 3 the transaction is re-broadcast on every attempt (3
broadcasts, 3 attempts) instead of failing fatally after the first. -/
theorem minedRevert_retried_eval :
    (sendTransaction defaultCfg false ⟨.ok (0, 0), fun _ => minedRevertAttempt⟩
        ⟨none, 0⟩).map
      (fun p => (p.1.attempts, p.1.broadcasts, p.1.result)) =
    some (3, 3,
      .error (.exception "Transaction reverted - consumed 21000 gas")) := by
  rfl

/-- Claim C3, counterexample: first attempt times out at 31 seconds; the
second attempt runs 32 seconds into the call, inside the 60 second nonce
refresh interval, so _get_safe_nonce returns the locally cached value 1
and never consults the chain counts, which stood at 9; the fresh-read
nonce the claim requires would have been 9, not 1. -/
theorem staleNonceAfterTimeout_counterexample :
    (sendTransaction defaultCfg false ⟨.ok (0, 0), timeoutThenSuccess⟩
        ⟨none, 0⟩).map
      (fun p => (p.1.attempts, p.1.noncesUsed, p.1.result)) =
      some (2, [0, 1], .ok (18, 50000)) ∧
    (timeoutThenSuccess 1).nonceReads = .ok (9, 9) ∧ (1 : Nat) ≠ 9 := by
  exact ⟨rfl, rfl, by decide⟩

/-- Claim C3, amended: an attempt obtains its nonce from _get_safe_nonce,
which consults the chain-reported counts only when the refresh interval
has elapsed since the last refresh or no cache entry exists; otherwise the
attempt uses the locally cached incrementing value, independent of the
chain counts; when a refresh does run with successful reads, the nonce is
reconciled as the maximum of the confirmed count, the pending count and
the cached value. -/
theorem nonceRefreshPolicy (interval now : Nat) (st : NonceState)
    (reads reads' : Except PyErr (Nat × Nat)) (c p n : Nat) :
    (shouldRefreshNonce interval st now = false →
       getSafeNonce interval st now reads = getSafeNonce interval st now reads') ∧
    (shouldRefreshNonce interval st now = false → st.cache = some n →
       getSafeNonce interval st now reads =
         (Except.ok n, ⟨some (n + 1), st.lastRefresh⟩)) ∧
    (shouldRefreshNonce interval st now = true → reads = .ok (c, p) →
       (getSafeNonce interval st now reads).1 =
         Except.ok (max (max c p) (cacheVal st))) := by
  obtain ⟨cache, last⟩ := st
  refine ⟨?_, ?_, ?_⟩
  · intro hs
    simp [getSafeNonce, hs]
  · intro hs hc
    simp at hc
    subst hc
    simp [getSafeNonce, hs]
  · intro hs hr
    subst hr
    simp [getSafeNonce, hs]

/-- Claim C3, witness: inside the refresh interval the returned nonce is
the cached 5 and the computation is independent of the chain reads. -/
theorem nonceRefreshPolicy_witness :
    getSafeNonce 60 ⟨some 5, 0⟩ 32 (.ok (9, 9)) =
      getSafeNonce 60 ⟨some 5, 0⟩ 32 (.error (.exception "down")) ∧
    getSafeNonce 60 ⟨some 5, 0⟩ 32 (.ok (9, 9)) = (Except.ok 5, ⟨some 6, 0⟩) := by
  refine ⟨?_, ?_⟩
  · exact (nonceRefreshPolicy 60 32 ⟨some 5, 0⟩ (.ok (9, 9))
      (.error (.exception "down")) 0 0 5).1 (by decide)
  · exact (nonceRefreshPolicy 60 32 ⟨some 5, 0⟩ (.ok (9, 9))
      (.error (.exception "down")) 0 0 5).2.1 (by decide) rfl

/-- Claim C9: a failure of the chain reads during a nonce refresh
propagates to the caller exactly when the account has no cached entry;
with a cached entry the error is swallowed and the stale cached value is
returned and incremented, the refresh timestamp staying untouched. -/
theorem nonceRefreshFailure_policy (interval now : Nat) (st : NonceState)
    (e : PyErr) :
    ((getSafeNonce interval st now (.error e)).1 = Except.error e ↔
        st.cache = none) ∧
    (∀ n, st.cache = some n →
       getSafeNonce interval st now (.error e) =
         (Except.ok n, ⟨some (n + 1), st.lastRefresh⟩)) := by
  obtain ⟨cache, last⟩ := st
  cases cache with
  | none =>
      refine ⟨by simp [getSafeNonce, shouldRefreshNonce_of_none], ?_⟩
      intro n hn
      simp at hn
  | some m =>
      constructor
      · by_cases hs : shouldRefreshNonce interval ⟨some m, last⟩ now <;>
          simp [getSafeNonce, hs]
      · intro n hn
        simp at hn
        subst hn
        by_cases hs : shouldRefreshNonce interval ⟨some m, last⟩ now <;>
          simp [getSafeNonce, hs]

/-- Claim C9, witness: with a cached entry 4 a failed refresh is swallowed
and nonce 4 is served, the cache advancing to 5; the result is not the
error. -/
theorem nonceRefreshFailure_policy_witness :
    (¬ ((getSafeNonce 60 ⟨some 4, 0⟩ 100 (.error (.exception "boom"))).1 =
        Except.error (.exception "boom"))) ∧
    getSafeNonce 60 ⟨some 4, 0⟩ 100 (.error (.exception "boom")) =
      (Except.ok 4, ⟨some 5, 0⟩) := by
  constructor
  · intro h
    have := (nonceRefreshFailure_policy 60 100 ⟨some 4, 0⟩
      (.exception "boom")).1.mp h
    simp at this
  · exact (nonceRefreshFailure_policy 60 100 ⟨some 4, 0⟩
      (.exception "boom")).2 4 rfl

lemma getSafeNonce_refresh_ge (interval now : Nat) (st : NonceState) (c p : Nat)
    (hs : shouldRefreshNonce interval st now = true) :
    c ≤ cacheVal (getSafeNonce interval st now (.ok (c, p))).2 ∧
    p ≤ cacheVal (getSafeNonce interval st now (.ok (c, p))).2 := by
  obtain ⟨cache, last⟩ := st
  simp [getSafeNonce, hs, cacheVal]
  constructor
  · exact le_trans (le_trans (le_max_left c p) (le_max_left _ _)) (Nat.le_succ _)
  · exact le_trans (le_trans (le_max_right c p) (le_max_left _ _)) (Nat.le_succ _)

/-- Claim C8, counterexample: two sequential successful send_transaction
calls on the same manager; before the second, the refresh interval has
elapsed and the chain reports pending count 5 (an external submission), so
the second call uses nonce 5 right after nonce 0: the nonces are not
strictly increasing by one. -/
theorem nonceIncrement_counterexample :
    (sendTransaction defaultCfg false
        ⟨.ok (0, 0), fun _ => successAttempt 0 (.ok (0, 0)) 21⟩ ⟨none, 0⟩).map
      (fun q => (q.1.noncesUsed, q.1.finalState)) = some ([0], ⟨some 1, 0⟩) ∧
    (sendTransaction defaultCfg false
        ⟨.ok (0, 0), fun _ => successAttempt 61 (.ok (0, 5)) 22⟩ ⟨some 1, 0⟩).map
      (fun q => q.1.noncesUsed) = some [5] ∧
    ¬ (5 = 0 + 1) :=
  ⟨rfl, rfl, by decide⟩

/-- Claim C8, amended: the cached nonce only increases over the manager's
lifetime; after a refresh with successful reads it is at least both the
confirmed and the pending count read; nonces handed to consecutive
acquisitions are strictly increasing, and increase by exactly one whenever
the second acquisition does not run a chain refresh. -/
theorem nonceMonotonicity (interval now1 now2 c p n1 n2 : Nat)
    (st0 : NonceState) (r1 r2 : Except PyErr (Nat × Nat)) :
    cacheVal st0 ≤ cacheVal (getSafeNonce interval st0 now1 r1).2 ∧
    (shouldRefreshNonce interval st0 now1 = true → r1 = .ok (c, p) →
       c ≤ cacheVal (getSafeNonce interval st0 now1 r1).2 ∧
       p ≤ cacheVal (getSafeNonce interval st0 now1 r1).2) ∧
    ((getSafeNonce interval st0 now1 r1).1 = Except.ok n1 →
     (getSafeNonce interval (getSafeNonce interval st0 now1 r1).2 now2 r2).1 =
         Except.ok n2 →
       n1 < n2 ∧
       (shouldRefreshNonce interval (getSafeNonce interval st0 now1 r1).2 now2 =
           false → n2 = n1 + 1)) := by
  refine ⟨getSafeNonce_cache_mono interval now1 st0 r1, ?_, ?_⟩
  · intro hs hr
    subst hr
    exact getSafeNonce_refresh_ge interval now1 st0 c p hs
  · intro h1 h2
    have hc1 := getSafeNonce_ok_cache interval now1 st0 r1 n1 h1
    have hge := getSafeNonce_ok_ge interval now2 _ r2 n2 h2
    have hcv : cacheVal (getSafeNonce interval st0 now1 r1).2 = n1 + 1 := by
      simp [cacheVal, hc1]
    constructor
    · rw [hcv] at hge
      omega
    · intro hs2
      have h3 := getSafeNonce_noRefresh interval now2 _ r2 (n1 + 1) hs2 hc1
      simpa using h2.symm.trans h3

/-- Claim C8, witness: a first acquisition from an empty cache at clock 0
and a second one at clock 10 (no refresh due) hand out 0 then 1. -/
theorem nonceMonotonicity_witness :
    cacheVal ⟨none, 0⟩ ≤ cacheVal (getSafeNonce 60 ⟨none, 0⟩ 0 (.ok (0, 0))).2 ∧
    (0 : Nat) < 1 ∧ (1 : Nat) = 0 + 1 := by
  have h := nonceMonotonicity 60 0 10 0 0 0 1 ⟨none, 0⟩ (.ok (0, 0)) (.ok (0, 0))
  have h3 := h.2.2 rfl rfl
  exact ⟨h.1, h3.1, h3.2 rfl⟩

/-- Claim C4, counterexample: with base_gas_multiplier and
max_gas_multiplier both 1.5 and a network price of 100 wei, retries 1 and
2 use the same capped gas price 150, so the price on attempt k+1 is not
strictly greater than on attempt k. -/
theorem gasEscalation_counterexample :
    gasPriceAt 100 (3 / 2) (3 / 2) 2 = gasPriceAt 100 (3 / 2) (3 / 2) 1 ∧
    ¬ (gasPriceAt 100 (3 / 2) (3 / 2) 1 < gasPriceAt 100 (3 / 2) (3 / 2) 2) := by
  have h1 : gasPriceAt 100 (3 / 2) (3 / 2) 1 = 150 := by
    unfold gasPriceAt gasMultiplier
    norm_num [min_def, Int.floor_eq_iff]
  have h2 : gasPriceAt 100 (3 / 2) (3 / 2) 2 = 150 := by
    unfold gasPriceAt gasMultiplier
    norm_num [min_def, Int.floor_eq_iff]
  rw [h1, h2]
  exact ⟨rfl, by decide⟩

/-- Claim C4, amended: attempt 0 uses the unescalated network gas price;
the multiplier applied on a retry never exceeds max_gas_multiplier; while
the uncapped product stays below the cap the multiplier strictly grows
from one retry to the next; and with base_gas_multiplier at least 1 and at
most the cap, the gas price sequence is non-decreasing (strict growth can
fail once the cap binds, or by integer truncation). -/
theorem gasEscalation_amended (base : Nat) (b M : ℚ) (n : Nat) :
    gasPriceAt base b M 0 = base ∧
    gasMultiplier b M n ≤ M ∧
    (0 < b → 1 ≤ n → b * (6 / 5 : ℚ) ^ (n - 1) < M →
       gasMultiplier b M n < gasMultiplier b M (n + 1)) ∧
    (1 ≤ b → b ≤ M → gasPriceAt base b M n ≤ gasPriceAt base b M (n + 1)) := by
  refine ⟨by simp [gasPriceAt], min_le_right _ _, ?_, ?_⟩
  · intro hb hn hlt
    have hpow : (6 / 5 : ℚ) ^ (n - 1) < (6 / 5 : ℚ) ^ n :=
      pow_lt_pow_right₀ (by norm_num) (by omega)
    have hmul : b * (6 / 5 : ℚ) ^ (n - 1) < b * (6 / 5 : ℚ) ^ n :=
      mul_lt_mul_of_pos_left hpow hb
    unfold gasMultiplier
    rw [min_eq_left hlt.le]
    have hidx : n + 1 - 1 = n := rfl
    rw [hidx]
    exact lt_min hmul hlt
  · intro hb hbM
    have hbpos : (0 : ℚ) ≤ b := le_trans zero_le_one hb
    cases n with
    | zero =>
        unfold gasPriceAt gasMultiplier
        simp
        rw [min_eq_left hbM, Int.le_floor]
        push_cast
        exact le_mul_of_one_le_right (by positivity) hb
    | succ m =>
        unfold gasPriceAt
        simp
        apply Int.floor_le_floor
        apply mul_le_mul_of_nonneg_left ?_ (by positivity)
        unfold gasMultiplier
        refine min_le_min ?_ le_rfl
        apply mul_le_mul_of_nonneg_left ?_ hbpos
        exact pow_le_pow_right₀ (by norm_num) (by omega)

/-- Claim C4, witness: with the default multipliers and base price 100,
attempt 0 uses 100, the retry multiplier stays at most 5, grows strictly
from retry 1 to retry 2, and the price does not decrease. -/
theorem gasEscalation_witness :
    gasPriceAt 100 (3 / 2) 5 0 = 100 ∧
    gasMultiplier (3 / 2) 5 1 ≤ 5 ∧
    gasMultiplier (3 / 2) 5 1 < gasMultiplier (3 / 2) 5 2 ∧
    gasPriceAt 100 (3 / 2) 5 1 ≤ gasPriceAt 100 (3 / 2) 5 2 := by
  obtain ⟨h1, h2, h3, h4⟩ := gasEscalation_amended 100 (3 / 2) 5 1
  exact ⟨h1, h2, h3 (by norm_num) (by norm_num) (by norm_num),
    h4 (by norm_num) (by norm_num)⟩

lemma classifyFatal_eq_none (d : Option String) (e : PyErr)
    (h : e.isFatalClass = false) : classifyFatal d e = none := by
  cases e with
  | contractLogicError m => simp [PyErr.isFatalClass] at h
  | contractCustomError m => simp [PyErr.isFatalClass] at h
  | timeoutError m => rfl
  | exception m => rfl

lemma sendLoop_succ_retryable (cfg : SendConfig) (o : Nat → AttemptOracle)
    (rc r : Nat) (st : NonceState) (lastErr : Option PyErr)
    (att : AttemptOut) (e : PyErr)
    (heq : runAttempt cfg.interval cfg.timeout cfg.baseGasMultiplier
        cfg.maxGasMultiplier rc st (o rc) = some att)
    (hres : att.result = Except.error e)
    (hcf : classifyFatal (o rc).decodeCustom e = none) :
    sendLoop cfg o rc (r + 1) st lastErr =
      (if r = 0 then
        some { result := Except.error e, attempts := 1,
               broadcasts := if att.broadcast then 1 else 0,
               noncesUsed := att.nonceUsed.toList,
               gasPricesUsed := att.gasPriceUsed.toList,
               lastError := some e, finalState := att.state }
      else
        match sendLoop cfg o (rc + 1) r att.state (some e) with
        | none => none
        | some rest =>
            some { result := rest.result, attempts := rest.attempts + 1,
                   broadcasts := rest.broadcasts +
                     (if att.broadcast then 1 else 0),
                   noncesUsed := att.nonceUsed.toList ++ rest.noncesUsed,
                   gasPricesUsed := att.gasPriceUsed.toList ++ rest.gasPricesUsed,
                   lastError := rest.lastError,
                   finalState := rest.finalState }) := by
  simp [sendLoop, heq, hres, hcf]

lemma sendLoop_retryable (cfg : SendConfig) (o : Nat → AttemptOracle) :
    ∀ (r rc : Nat) (st : NonceState) (lastErr : Option PyErr), 1 ≤ r →
    (∀ i, rc ≤ i → i < rc + r → attemptAlwaysRetryable cfg (o i) i) →
    ∃ out e, sendLoop cfg o rc r st lastErr = some out ∧ out.attempts = r ∧
      out.result = Except.error e ∧ out.lastError = some e ∧
      e.isFatalClass = false := by
  intro r
  induction r with
  | zero => intro rc st lastErr h1; omega
  | succ r' ih =>
    intro rc st lastErr _ H
    obtain ⟨att, e, heq, hres, hfat⟩ := H rc (le_refl rc) (by omega) st
    have hcf := classifyFatal_eq_none (o rc).decodeCustom e hfat
    have hstep := sendLoop_succ_retryable cfg o rc r' st lastErr att e heq hres hcf
    cases r' with
    | zero =>
        rw [if_pos rfl] at hstep
        exact ⟨_, e, hstep, rfl, rfl, rfl, hfat⟩
    | succ r'' =>
        obtain ⟨rest, e2, hrec, hatt, hres2, hlast2, hfat2⟩ :=
          ih (rc + 1) att.state (some e) (by omega)
            (fun i hi1 hi2 => H i (by omega) (by omega))
        rw [if_neg (Nat.succ_ne_zero r''), hrec] at hstep
        have hstep' : sendLoop cfg o rc (r'' + 1 + 1) st lastErr =
            some { result := rest.result, attempts := rest.attempts + 1,
                   broadcasts := rest.broadcasts +
                     (if att.broadcast then 1 else 0),
                   noncesUsed := att.nonceUsed.toList ++ rest.noncesUsed,
                   gasPricesUsed := att.gasPriceUsed.toList ++ rest.gasPricesUsed,
                   lastError := rest.lastError,
                   finalState := rest.finalState } := hstep
        exact ⟨_, e2, hstep', by simp [hatt], by simpa using hres2,
          by simpa using hlast2, hfat2⟩

/-- Claim C5: when every attempt resolves to a retryable error,
send_transaction runs exactly max_retries attempts and then raises,
re-raising the error of the last attempt (the final value of last_error);
it neither starts an additional attempt nor returns normally. -/
theorem sendExhaustion (cfg : SendConfig) (o : Nat → AttemptOracle)
    (pre : Except PyErr (Nat × Nat)) (st : NonceState)
    (h1 : 1 ≤ cfg.maxRetries)
    (H : ∀ i, i < cfg.maxRetries → attemptAlwaysRetryable cfg (o i) i) :
    ∃ out e, sendTransaction cfg false ⟨pre, o⟩ st = some (out, false) ∧
      out.attempts = cfg.maxRetries ∧ out.result = Except.error e ∧
      out.lastError = some e ∧ e.isFatalClass = false := by
  obtain ⟨out, e, heq, h2, h3, h4, h5⟩ :=
    sendLoop_retryable cfg o cfg.maxRetries 0 st none h1
      (fun i hi1 hi2 => H i (by omega))
  exact ⟨out, e, by simp [sendTransaction, heq], h2, h3, h4, h5⟩

/-- Claim C5, witness: with max_retries 3 and a script whose every attempt
fails with a transient connection error, exactly 3 attempts run and the
raised error is the last transient error. -/
theorem sendExhaustion_witness :
    ∃ out e, sendTransaction defaultCfg false
        ⟨.ok (0, 0), fun _ => transientAttempt⟩ ⟨none, 0⟩ = some (out, false) ∧
      out.attempts = defaultCfg.maxRetries ∧ out.result = Except.error e ∧
      out.lastError = some e ∧ e.isFatalClass = false := by
  refine sendExhaustion defaultCfg (fun _ => transientAttempt) (.ok (0, 0))
    ⟨none, 0⟩ (by decide) ?_
  intro i _ st
  exact ⟨⟨.error (.exception "connection error"), st, false, none, none⟩,
    .exception "connection error", rfl, rfl, rfl⟩

lemma revertMsg_marked (s t : String) :
    pyStartsWith ("Transaction reverted - consumed " ++ s ++ t) revertMarker =
      true := by
  obtain ⟨sd⟩ := s
  obtain ⟨td⟩ := t
  rfl

/-- Claim C10: inside the receipt polling loop, a fetch exception whose
message does not start with the revert marker is swallowed and polling
continues (subject only to the timeout check); and whenever the loop ends
by re-raising, the raised message carries the marker, i.e. the loop
terminates only through a success receipt, a revert-classified raise, or
the timeout. -/
theorem pollLoop_handling (timeout elapsed : Nat) (e : PyErr)
    (rest steps : List PollStep) (e' : PyErr) :
    (pyStartsWith e.msg revertMarker = false →
       pollLoop timeout (⟨.fetchError e, elapsed⟩ :: rest) =
         if timeout < elapsed then PollOutcome.timedOut
         else pollLoop timeout rest) ∧
    (pollLoop timeout steps = PollOutcome.raised e' →
       pyStartsWith e'.msg revertMarker = true) := by
  constructor
  · intro h
    simp [pollLoop, h]
  · induction steps with
    | nil =>
        intro h
        simp [pollLoop] at h
    | cons s t ih =>
        intro h
        obtain ⟨f, el⟩ := s
        cases f with
        | receipt status gasUsed =>
            by_cases h1 : status = 1
            · simp [pollLoop, h1] at h
            · simp only [pollLoop, h1, if_false, PyErr.msg, revertMsg_marked,
                if_true] at h
              cases h
              simp [PyErr.msg, revertMsg_marked]
        | noReceipt =>
            simp only [pollLoop] at h
            split at h
            · exact absurd h (by simp)
            · exact ih h
        | fetchError g =>
            simp only [pollLoop] at h
            split at h
            · next hg =>
                cases h
                exact hg
            · split at h
              · exact absurd h (by simp)
              · exact ih h

/-- Claim C10, witness: a connection-reset fetch error continues the loop,
and the revert raise produced by a status-0 receipt carries the marker. -/
theorem pollLoop_handling_witness :
    pollLoop 30 [⟨.fetchError (.exception "connection reset"), 3⟩] =
      (if 30 < 3 then PollOutcome.timedOut else pollLoop 30 []) ∧
    pyStartsWith
      (PyErr.msg (.exception "Transaction reverted - consumed 21000 gas"))
      revertMarker = true := by
  constructor
  · exact (pollLoop_handling 30 3 (.exception "connection reset") [] []
      (.exception "x")).1 rfl
  · exact (pollLoop_handling 30 0 (.exception "x") [] [⟨.receipt 0 21000, 1⟩]
      (.exception "Transaction reverted - consumed 21000 gas")).2 rfl

end Vana
